import Mathlib

/-!
Verification of the photo ingestion pipeline of the gallery backend
(`file_handler.py`, `telegram_service.py`, `routes_admin.py`, `models.py`).

Bytes are modelled as `List Nat` (each entry a byte value), the MongoDB
category collection as a `List Category`, and the two external effects —
the Pillow image codec and the Telegram HTTP API — as explicit parameters
of the route functions.  All definitions are executable.
-/

/- ### Byte-level helpers: MD5 (used by the mock storage id) -/

/-- Truncate to a 32-bit word, as Python's md5 arithmetic does implicitly. -/
def w32 (x : Nat) : Nat := x % 4294967296

/-- 32-bit left rotation. -/
def rotl32 (x s : Nat) : Nat :=
  w32 (Nat.lor (Nat.shiftLeft x s) (Nat.shiftRight x (32 - s)))

/-- 32-bit bitwise complement. -/
def not32 (x : Nat) : Nat := Nat.xor x 4294967295

/-- The 64 MD5 sine-derived round constants. -/
def md5K : List Nat :=
  [0xd76aa478, 0xe8c7b756, 0x242070db, 0xc1bdceee,
   0xf57c0faf, 0x4787c62a, 0xa8304613, 0xfd469501,
   0x698098d8, 0x8b44f7af, 0xffff5bb1, 0x895cd7be,
   0x6b901122, 0xfd987193, 0xa679438e, 0x49b40821,
   0xf61e2562, 0xc040b340, 0x265e5a51, 0xe9b6c7aa,
   0xd62f105d, 0x02441453, 0xd8a1e681, 0xe7d3fbc8,
   0x21e1cde6, 0xc33707d6, 0xf4d50d87, 0x455a14ed,
   0xa9e3e905, 0xfcefa3f8, 0x676f02d9, 0x8d2a4c8a,
   0xfffa3942, 0x8771f681, 0x6d9d6122, 0xfde5380c,
   0xa4beea44, 0x4bdecfa9, 0xf6bb4b60, 0xbebfbc70,
   0x289b7ec6, 0xeaa127fa, 0xd4ef3085, 0x04881d05,
   0xd9d4d039, 0xe6db99e5, 0x1fa27cf8, 0xc4ac5665,
   0xf4292244, 0x432aff97, 0xab9423a7, 0xfc93a039,
   0x655b59c3, 0x8f0ccc92, 0xffeff47d, 0x85845dd1,
   0x6fa87e4f, 0xfe2ce6e0, 0xa3014314, 0x4e0811a1,
   0xf7537e82, 0xbd3af235, 0x2ad7d2bb, 0xeb86d391]

/-- The 64 MD5 per-round shift amounts. -/
def md5S : List Nat :=
  [7, 12, 17, 22, 7, 12, 17, 22, 7, 12, 17, 22, 7, 12, 17, 22,
   5,  9, 14, 20, 5,  9, 14, 20, 5,  9, 14, 20, 5,  9, 14, 20,
   4, 11, 16, 23, 4, 11, 16, 23, 4, 11, 16, 23, 4, 11, 16, 23,
   6, 10, 15, 21, 6, 10, 15, 21, 6, 10, 15, 21, 6, 10, 15, 21]

/-- Little-endian byte serialisation of `n` into `count` bytes. -/
def toLEBytes : Nat → Nat → List Nat
  | _, 0 => []
  | n, count + 1 => (n % 256) :: toLEBytes (n / 256) count

/-- Read a 64-byte chunk as 16 little-endian 32-bit words. -/
def chunkWords (chunk : List Nat) : List Nat :=
  match chunk with
  | b0 :: b1 :: b2 :: b3 :: rest =>
    (b0 + 256 * b1 + 65536 * b2 + 16777216 * b3) :: chunkWords rest
  | _ => []

/-- Split a byte list into 64-byte chunks (structural recursion on a fuel
bound; each step consumes at least one element, so `l.length` fuel suffices). -/
def chunks64Aux : Nat → List Nat → List (List Nat)
  | 0, _ => []
  | _, [] => []
  | fuel + 1, x :: xs => ((x :: xs).take 64) :: chunks64Aux fuel (xs.drop 63)

/-- Split a byte list into 64-byte chunks. -/
def chunks64 (l : List Nat) : List (List Nat) := chunks64Aux l.length l

/-- One MD5 round applied to the running `(A, B, C, D)` state. -/
def md5Round (M : List Nat) (st : Nat × Nat × Nat × Nat) (i : Nat) :
    Nat × Nat × Nat × Nat :=
  let A := st.1
  let B := st.2.1
  let C := st.2.2.1
  let D := st.2.2.2
  let FG : Nat × Nat :=
    if i < 16 then
      (Nat.lor (Nat.land B C) (Nat.land (not32 B) D), i)
    else if i < 32 then
      (Nat.lor (Nat.land D B) (Nat.land (not32 D) C), (5 * i + 1) % 16)
    else if i < 48 then
      (Nat.xor B (Nat.xor C D), (3 * i + 5) % 16)
    else
      (Nat.xor C (Nat.lor B (not32 D)), (7 * i) % 16)
  let F := w32 (FG.1 + A + md5K.getD i 0 + M.getD FG.2 0)
  (D, w32 (B + rotl32 F (md5S.getD i 0)), B, C)

/-- Process one 64-byte chunk against the 4-word digest state. -/
def md5Chunk (st : Nat × Nat × Nat × Nat) (chunk : List Nat) :
    Nat × Nat × Nat × Nat :=
  let M := chunkWords chunk
  let r := (List.range 64).foldl (md5Round M) st
  (w32 (st.1 + r.1), w32 (st.2.1 + r.2.1),
   w32 (st.2.2.1 + r.2.2.1), w32 (st.2.2.2 + r.2.2.2))

/-- MD5 padding: a 0x80 byte, zeros to 56 mod 64, then the 64-bit bit length. -/
def md5Pad (msg : List Nat) : List Nat :=
  msg ++ [0x80] ++ List.replicate ((119 - msg.length % 64) % 64) 0
      ++ toLEBytes (8 * msg.length % 18446744073709551616) 8

/-- The 16-byte MD5 digest of a byte list. -/
def md5Bytes (msg : List Nat) : List Nat :=
  let st := (chunks64 (md5Pad msg)).foldl md5Chunk
    (0x67452301, 0xefcdab89, 0x98badcfe, 0x10325476)
  toLEBytes st.1 4 ++ toLEBytes st.2.1 4 ++ toLEBytes st.2.2.1 4 ++ toLEBytes st.2.2.2 4

/-- Lower-case hexadecimal digit (codepoints 48-57 then 97-102). -/
def hexDigit (n : Nat) : Char :=
  Char.ofNat (if n < 10 then 48 + n else 87 + n)

/-- Two-character lower-case hex rendering of a byte. -/
def byteToHex (b : Nat) : String := String.mk [hexDigit (b / 16), hexDigit (b % 16)]

/-- `hashlib.md5(content).hexdigest()`. -/
def md5hex (msg : List Nat) : String := String.join ((md5Bytes msg).map byteToHex)

/- ### base64 (used by the mock data URL) -/

/-- The standard base64 alphabet. -/
def b64Alphabet : List Char :=
  "ABCDEFGHIJKLMNOPQRSTUVWXYZabcdefghijklmnopqrstuvwxyz0123456789+/".data

/-- One base64 output character. -/
def b64Char (n : Nat) : Char := b64Alphabet.getD n 'A'

/-- `base64.b64encode(content).decode()` on a byte list. -/
def base64Encode : List Nat → String
  | [] => ""
  | [a] =>
    String.mk [b64Char (a / 4), b64Char (a % 4 * 16), '=', '=']
  | [a, b] =>
    String.mk [b64Char (a / 4), b64Char (a % 4 * 16 + b / 16), b64Char (b % 16 * 4), '=']
  | a :: b :: c :: rest =>
    String.mk [b64Char (a / 4), b64Char (a % 4 * 16 + b / 16),
               b64Char (b % 16 * 4 + c / 64), b64Char (c % 64)]
      ++ base64Encode rest

/- ### Data model (`models.py`) -/

/-- `models.Photo`: timestamps are abstract `Nat` ticks, the generated uuid
is an explicit field (supplied by the caller context in the route model). -/
structure Photo where
  id : String
  telegram_file_id : Option String
  telegram_file_unique_id : Option String
  file_url : String
  file_size : Option Nat
  mime_type : Option String
  uploaded_at : Nat
deriving DecidableEq, Repr

/-- `models.Category` as persisted in the `categories` collection. -/
structure Category where
  id : String
  name : String
  photos_before : List Photo
  photos_after : List Photo
  sentences : List String
  created_at : Nat
deriving DecidableEq, Repr

/-- `fastapi.HTTPException`: a status code and a detail message. -/
structure HTTPError where
  status_code : Nat
  detail : String
deriving DecidableEq, Repr

/-- `models.UploadResponse`. -/
structure UploadResponse where
  success : Bool
  photo : Option Photo
  message : String
deriving DecidableEq, Repr

deriving instance DecidableEq for Except

/- ### Validator (`file_handler.py`) -/

/-- `FileHandler.ALLOWED_EXTENSIONS`. -/
def ALLOWED_EXTENSIONS : List String := [".png"]

/-- `FileHandler.ALLOWED_MIME_TYPES`. -/
def ALLOWED_MIME_TYPES : List String := ["image/png"]

/-- `FileHandler.MAX_FILE_SIZE` (10 MiB). -/
def MAX_FILE_SIZE : Nat := 10 * 1024 * 1024

/-- Python `str.split(sep)` for a one-character separator, on char lists. -/
def splitOnChar (c : Char) : List Char → List (List Char)
  | [] => [[]]
  | x :: xs =>
    if x = c then [] :: splitOnChar c xs
    else
      match splitOnChar c xs with
      | [] => [[x]]
      | h :: t => (x :: h) :: t

/-- `filename.lower().split('.')[-1] if '.' in filename else ''`
(the containment test is on the original name, the split on the lowered one,
exactly as in `FileHandler.validate_file` / `validate_and_read_upload`). -/
def extensionOf (filename : String) : String :=
  if '.' ∈ filename.data then
    String.mk ((splitOnChar '.' (filename.data.map Char.toLower)).getLastD [])
  else ""

/-- `FileHandler.validate_file`.  `filename`/`content_type` model the
`UploadFile` fields; `none` is Python `None`.  Python truthiness (`not
file.filename`, `if file.content_type`) treats the empty string like `None`. -/
def validate_file (filename : Option String) (content_type : Option String) :
    Option String :=
  if filename.getD "" = "" then some "No file provided"
  else
    let file_ext := extensionOf (filename.getD "")
    if ¬ ("." ++ file_ext) ∈ ALLOWED_EXTENSIONS then
      some "Invalid file extension. Allowed: .png"
    else if content_type.getD "" ≠ "" ∧ ¬ content_type.getD "" ∈ ALLOWED_MIME_TYPES then
      some "Invalid file type. Allowed: image/png"
    else none

/-- `FileHandler.validate_and_read_upload` (the full validator: size ceiling,
emptiness, extension, then declared-mime check with content sniffing).
`sniff = some guess` models the `filetype` library being importable with
`guess content = kind.mime`; `sniff = none` models the `ImportError` branch.
Returns the `(file_content, mime_type, filename)` tuple on success. -/
def validate_and_read_upload (sniff : Option (List Nat → Option String))
    (file_content : List Nat) (filename0 : Option String)
    (content_type : Option String) :
    Except HTTPError (List Nat × Option String × String) :=
  let filename := if filename0.getD "" = "" then "unknown" else filename0.getD ""
  let file_size := file_content.length
  if file_size > MAX_FILE_SIZE then
    .error ⟨400, "File too large. Maximum size is "
      ++ toString (MAX_FILE_SIZE / (1024 * 1024)) ++ "MB"⟩
  else if file_size = 0 then
    .error ⟨400, "File is empty"⟩
  else
    let file_ext := extensionOf filename
    if ¬ ("." ++ file_ext) ∈ ALLOWED_EXTENSIONS then
      .error ⟨400, "Invalid file extension. Allowed: .png"⟩
    else
      let mime_type := content_type
      if (mime_type.getD "") ∈ ALLOWED_MIME_TYPES then
        .ok (file_content, mime_type, filename)
      else
        match sniff with
        | some guess =>
          match guess file_content with
          | some kind_mime =>
            if kind_mime ∈ ALLOWED_MIME_TYPES then
              .ok (file_content, some kind_mime, filename)
            else .error ⟨400, "Invalid file type. Allowed: image/png"⟩
          | none => .error ⟨400, "Invalid file type. Allowed: image/png"⟩
        | none => .ok (file_content, mime_type, filename)

/- ### Storage backend (`telegram_service.py`) -/

/-- The default applied by `os.environ.get('TELEGRAM_BOT_TOKEN', ...)`. -/
def DEFAULT_BOT_TOKEN : String := "mock_bot_token_12345"

/-- `TelegramService.__init__`: the effective bot token for a given
environment (`none` = variable absent). -/
def botToken (env_bot_token : Option String) : String :=
  env_bot_token.getD DEFAULT_BOT_TOKEN

/-- Python `s.startswith(pre)`, computed on the character lists. -/
def strStartsWith (s pre : String) : Bool := pre.data.isPrefixOf s.data

/-- `TelegramService.mock_mode`: `self.bot_token.startswith('mock_')`. -/
def mockMode (bot_token : String) : Bool := strStartsWith bot_token "mock_"

/-- The mock external id: `f"AgACAgIAAxkBAAI_{file_hash}_mock"`. -/
def mock_file_id (file_content : List Nat) : String :=
  "AgACAgIAAxkBAAI_" ++ md5hex file_content ++ "_mock"

/-- The mock branch of `TelegramService.upload_photo`: deterministic id from
the md5 of the bytes and a self-contained data URL. -/
def mock_upload (file_content : List Nat) (mime_type : String) :
    String × Option String × Nat × String :=
  let file_size := file_content.length
  let base64_image := base64Encode file_content
  let file_url := "data:" ++ mime_type ++ ";base64," ++ base64_image
  (file_url, some (mock_file_id file_content), file_size, mime_type)

/-- Outcome of the `POST /sendPhoto` call: `success file_id` models HTTP 200
with `ok = true` (`file_id` of the largest photo size), `failure error_text`
models a non-200 status or `ok = false` with the response body text. -/
inductive SendPhotoResp where
  | success (file_id : String)
  | failure (error_text : String)
deriving DecidableEq, Repr

/-- `TelegramService._get_file_url`: `getFileResp file_id` is the `file_path`
from a successful `GET /getFile` response, `none` covering non-200 statuses,
`ok = false` bodies and network exceptions (all of which yield `None`). -/
def get_file_url (bot_token : String) (getFileResp : String → Option String)
    (file_id : String) : Option String :=
  match getFileResp file_id with
  | some file_path =>
    some ("https://api.telegram.org/file/bot" ++ bot_token ++ "/" ++ file_path)
  | none => none

/-- `TelegramService.upload_photo`.  Errors are the raised exception
messages; the route wraps them in a 500 response. -/
def upload_photo (bot_token : String) (sendResp : SendPhotoResp)
    (getFileResp : String → Option String) (file_content : List Nat)
    (filename : String) (mime_type : String) :
    Except String (String × Option String × Nat × String) :=
  let file_size := file_content.length
  if mockMode bot_token then
    .ok (mock_upload file_content mime_type)
  else
    match sendResp with
    | .success file_id =>
      match get_file_url bot_token getFileResp file_id with
      | some file_url =>
        if file_url = "" then .error "Failed to get file URL"
        else .ok (file_url, some file_id, file_size, mime_type)
      | none => .error "Failed to get file URL"
    | .failure error_text => .error ("Telegram API error: " ++ error_text)

/- ### Document store primitives (`db.categories.update_one`) -/

/-- The two upload slots, matching the `photos_before` / `photos_after`
fields targeted by the two upload routes. -/
inductive Slot where
  | before
  | after
deriving DecidableEq, Repr

/-- The photo list of a slot. -/
def slotPhotos (slot : Slot) (c : Category) : List Photo :=
  match slot with
  | .before => c.photos_before
  | .after => c.photos_after

/-- Mongo `$push` of a photo onto one slot of one document. -/
def pushPhoto (slot : Slot) (c : Category) (p : Photo) : Category :=
  match slot with
  | .before => { c with photos_before := c.photos_before ++ [p] }
  | .after => { c with photos_after := c.photos_after ++ [p] }

/-- Mongo `$pull` of every element with `id = pid` from one slot. -/
def pullPhoto (slot : Slot) (c : Category) (pid : String) : Category :=
  match slot with
  | .before => { c with photos_before := c.photos_before.filter (fun p => p.id ≠ pid) }
  | .after => { c with photos_after := c.photos_after.filter (fun p => p.id ≠ pid) }

/-- `db.categories.update_one({"id": cid}, ...)`: Mongo applies the update
document (`modify`) to the first matching document only, and the result
carries the matched-document count (0 or 1). -/
def updateOne (modify : Category → Category) (store : List Category)
    (cid : String) : List Category × Nat :=
  match store with
  | [] => ([], 0)
  | c :: rest =>
    if c.id = cid then (modify c :: rest, 1)
    else
      let r := updateOne modify rest cid
      (c :: r.1, r.2)

/-- `update_one({"id": cid}, {"$push": {<slot>: photo}})`. -/
def updateOnePush (slot : Slot) (store : List Category) (cid : String)
    (p : Photo) : List Category × Nat :=
  updateOne (fun c => pushPhoto slot c p) store cid

/-- `update_one({"id": cid}, {"$pull": {<slot>: {"id": pid}}})`. -/
def updateOnePull (slot : Slot) (store : List Category) (cid : String)
    (pid : String) : List Category × Nat :=
  updateOne (fun c => pullPhoto slot c pid) store cid

/- ### Upload routes (`routes_admin.py`) -/

/-- The collaborators of one upload request that live outside the embedded
code: the Pillow codec (`Image.open` as `decode`, giving the decoded image or
the exception text, and `image.save(..., format="PNG")` as `savePNG`), the
Telegram HTTP responses, and the generated uuid / clock used by the `Photo`
constructor defaults. -/
structure UploadCtx (Img : Type) where
  decode : List Nat → Except String Img
  savePNG : Img → List Nat
  bot_token : String
  sendResp : SendPhotoResp
  getFileResp : String → Option String
  photo_uuid : String
  now : Nat

/-- The `try: Image.open ... image.save(buffer, format="PNG") except: 400`
block shared by both upload routes. -/
def normalizePNG {Img : Type} (decode : List Nat → Except String Img)
    (savePNG : Img → List Nat) (file_content : List Nat) :
    Except HTTPError (List Nat) :=
  match decode file_content with
  | .error e => .error ⟨400, "Invalid image file: " ++ e⟩
  | .ok image => .ok (savePNG image)

/-- The final step of an upload route: the single `update_one` `$push` call,
the matched-count check raising NotFound, and the success envelope. -/
def pushRecord (slot : Slot) (store : List Category) (category_id : String)
    (photo : Photo) : List Category × Except HTTPError UploadResponse :=
  let r := updateOnePush slot store category_id photo
  if r.2 = 0 then (r.1, .error ⟨404, "Category not found"⟩)
  else (r.1, .ok ⟨true, some photo, "Photo uploaded successfully"⟩)

/-- The tail of an upload route after normalization: storage upload, `Photo`
construction, `$push` with matched-count check, success envelope. -/
def recordUploaded {Img : Type} (ctx : UploadCtx Img) (slot : Slot)
    (store : List Category) (category_id : String) (filename : Option String)
    (normalized : List Nat) : List Category × Except HTTPError UploadResponse :=
  match upload_photo ctx.bot_token ctx.sendResp ctx.getFileResp normalized
      (filename.getD "") "image/png" with
  | .error e => (store, .error ⟨500, "Upload failed: " ++ e⟩)
  | .ok (file_url, telegram_file_id, file_size, mime_type) =>
    pushRecord slot store category_id
      { id := ctx.photo_uuid
        telegram_file_id := telegram_file_id
        telegram_file_unique_id := none
        file_url := file_url
        file_size := some file_size
        mime_type := some mime_type
        uploaded_at := ctx.now }

/-- `upload_photo_before` / `upload_photo_after` (they differ only in the
pushed field, selected by `slot`): validate, read, normalize via Pillow,
upload to storage, then `$push` the new `Photo`, with NotFound decided by the
matched count of that single update. -/
def upload_photo_route {Img : Type} (ctx : UploadCtx Img) (slot : Slot)
    (store : List Category) (category_id : String) (filename : Option String)
    (content_type : Option String) (file_content : List Nat) :
    List Category × Except HTTPError UploadResponse :=
  match validate_file filename content_type with
  | some validation_error => (store, .error ⟨400, validation_error⟩)
  | none =>
    match normalizePNG ctx.decode ctx.savePNG file_content with
    | .error e => (store, .error e)
    | .ok normalized => recordUploaded ctx slot store category_id filename normalized

/-- `POST /categories/{id}/upload-photo-before`. -/
def upload_photo_before {Img : Type} (ctx : UploadCtx Img)
    (store : List Category) (category_id : String) (filename : Option String)
    (content_type : Option String) (file_content : List Nat) :
    List Category × Except HTTPError UploadResponse :=
  upload_photo_route ctx .before store category_id filename content_type file_content

/-- `POST /categories/{id}/upload-photo-after`. -/
def upload_photo_after {Img : Type} (ctx : UploadCtx Img)
    (store : List Category) (category_id : String) (filename : Option String)
    (content_type : Option String) (file_content : List Nat) :
    List Category × Except HTTPError UploadResponse :=
  upload_photo_route ctx .after store category_id filename content_type file_content

/-- The slot addressed by `field = f"photos_{photo_type}"` for a validated
`photo_type`. -/
def slotOf (photo_type : String) : Slot :=
  if photo_type = "before" then .before else .after

/-- `DELETE /categories/{category_id}/photos/{photo_id}` (`delete_photo`):
guard on `photo_type`, `$pull` by photo id, NotFound by matched count. -/
def delete_photo (store : List Category) (category_id : String)
    (photo_id : String) (photo_type : String) :
    List Category × Except HTTPError String :=
  if ¬ (photo_type = "before" ∨ photo_type = "after") then
    (store, .error ⟨400, "photo_type must be \x27before\x27 or \x27after\x27"⟩)
  else
    let r := updateOnePull (slotOf photo_type) store category_id photo_id
    if r.2 = 0 then (r.1, .error ⟨404, "Category not found"⟩)
    else (r.1, .ok "Photo deleted successfully")

/- ### Concrete fixtures used by witnesses and counterexamples -/

/-- A mock-mode upload context: the decoder fails on the byte string `[0]`
with exception text "broken stream" and otherwise decodes to the abstract
image `7`, whose PNG re-encoding is `[137, 80, 7]`. -/
def ctxMock : UploadCtx Nat :=
  { decode := fun bs => if bs = [0] then .error "broken stream" else .ok 7
    savePNG := fun img => [137, 80, img]
    bot_token := DEFAULT_BOT_TOKEN
    sendResp := .failure "unused"
    getFileResp := fun _ => none
    photo_uuid := "uuid-1"
    now := 5 }

/-- A mock-mode upload context whose decoder always raises, modelling Pillow
on a stream that is not an image. -/
def ctxDecodeFail : UploadCtx Nat :=
  { decode := fun _ => .error "cannot identify image file"
    savePNG := fun _ => []
    bot_token := DEFAULT_BOT_TOKEN
    sendResp := .failure "unused"
    getFileResp := fun _ => none
    photo_uuid := "uuid-2"
    now := 6 }

/-- A payload one byte over the 10 MiB ceiling. -/
def oversizePayload : List Nat := List.replicate (MAX_FILE_SIZE + 1) 0

/-- A pre-existing stored photo. -/
def photoP1 : Photo :=
  { id := "p1"
    telegram_file_id := some "t1"
    telegram_file_unique_id := none
    file_url := "u1"
    file_size := some 3
    mime_type := some "image/png"
    uploaded_at := 1 }

/-- A stored category with one `before` photo. -/
def catA : Category :=
  { id := "A"
    name := "Alps"
    photos_before := [photoP1]
    photos_after := []
    sentences := ["s1"]
    created_at := 0 }

/-- A second stored category, untouched by the scenarios. -/
def catB : Category :=
  { id := "B"
    name := "Beach"
    photos_before := []
    photos_after := [photoP1]
    sentences := []
    created_at := 2 }

/-- The `Photo` recorded by `ctxMock` for an input decoding to image `7`. -/
def mockPhotoW : Photo :=
  { id := "uuid-1"
    telegram_file_id := some (mock_file_id [137, 80, 7])
    telegram_file_unique_id := none
    file_url := "data:image/png;base64," ++ base64Encode [137, 80, 7]
    file_size := some 3
    mime_type := some "image/png"
    uploaded_at := 5 }

/- ### Sanity checks of the byte-level helpers against reference values -/

set_option maxRecDepth 100000

example : md5hex [] = "d41d8cd98f00b204e9800998ecf8427e" := by decide
example : md5hex [1, 2, 3] = "5289df737df57326fcdd22597afb1fac" := by decide
example : md5hex [97, 98, 99] = "900150983cd24fb0d6963f7d28e17f72" := by decide
example : base64Encode [1, 2, 3] = "AQID" := by decide
example : base64Encode [1] = "AQ==" := by decide
example : base64Encode [1, 2] = "AQI=" := by decide
example : mockMode DEFAULT_BOT_TOKEN = true := by decide
example : mockMode "123:realtoken" = false := by decide
example : extensionOf "x.PNG" = "png" := by decide
example : extensionOf "archive.tar.gz" = "gz" := by decide
example : extensionOf "noext" = "" := by decide
example : validate_file (some "x.png") (some "image/png") = none := by decide
example : validate_file (some "x.jpg") (some "image/png")
    = some "Invalid file extension. Allowed: .png" := by decide
example : validate_file none none = some "No file provided" := by decide

/- ### String helpers -/

theorem str_data_append (a b : String) : (a ++ b).data = a.data ++ b.data := by
  cases a; cases b; rfl

theorem str_eq_iff_data (a b : String) : a = b ↔ a.data = b.data :=
  ⟨congrArg String.data, fun h => by cases a; cases b; cases h; rfl⟩

theorem str_append_ne_empty (a b : String) (ha : a ≠ "") : a ++ b ≠ "" := by
  intro h
  have h2 : a.data ++ b.data = [] := by
    rw [← str_data_append]
    exact congrArg String.data h
  exact ha ((str_eq_iff_data a "").mpr (List.append_eq_nil.mp h2).1)

theorem dot_append_eq (s : String) : ("." ++ s = ".png") ↔ s = "png" := by
  rw [str_eq_iff_data, str_eq_iff_data, str_data_append]
  constructor
  · intro h
    injection h
  · intro h
    rw [show s.data = "png".data from h]
    rfl

/- ### Matched-count lemmas for the single-document update primitive -/

theorem updateOne_not_found (modify : Category → Category)
    (store : List Category) (cid : String) (h : ∀ c ∈ store, c.id ≠ cid) :
    updateOne modify store cid = (store, 0) := by
  induction store with
  | nil => rfl
  | cons c rest ih =>
    have hc : ¬ c.id = cid := h c (List.mem_cons_self c rest)
    simp only [updateOne, if_neg hc,
      ih (fun c2 h2 => h c2 (List.mem_cons_of_mem c h2))]

theorem updateOne_zero (modify : Category → Category) (store : List Category)
    (cid : String) (h : (updateOne modify store cid).2 = 0) :
    (updateOne modify store cid).1 = store ∧ ∀ c ∈ store, c.id ≠ cid := by
  induction store with
  | nil => exact ⟨rfl, by simp⟩
  | cons c rest ih =>
    by_cases hc : c.id = cid
    · simp [updateOne, hc] at h
    · simp only [updateOne, if_neg hc] at h ⊢
      obtain ⟨h1, h2⟩ := ih h
      refine ⟨by rw [h1], ?_⟩
      rw [List.forall_mem_cons]
      exact ⟨hc, h2⟩

theorem updateOne_found (modify : Category → Category) (store : List Category)
    (cid : String) (h : ∃ c ∈ store, c.id = cid) :
    (updateOne modify store cid).2 ≠ 0 := by
  intro h0
  obtain ⟨c, hmem, hid⟩ := h
  exact (updateOne_zero modify store cid h0).2 c hmem hid

theorem updateOne_pos (modify : Category → Category) (store : List Category)
    (cid : String) (h : (updateOne modify store cid).2 ≠ 0) :
    ∃ pre c post, store = pre ++ c :: post ∧ (∀ c2 ∈ pre, c2.id ≠ cid)
      ∧ c.id = cid ∧ (updateOne modify store cid).1 = pre ++ modify c :: post := by
  induction store with
  | nil => simp [updateOne] at h
  | cons c rest ih =>
    by_cases hc : c.id = cid
    · exact ⟨[], c, rest, rfl, by simp, hc, by simp [updateOne, hc]⟩
    · have h2 : (updateOne modify rest cid).2 ≠ 0 := by
        simpa only [updateOne, if_neg hc] using h
      obtain ⟨pre, cm, post, he, hpre, hcm, hfst⟩ := ih h2
      refine ⟨c :: pre, cm, post, by rw [he]; rfl, ?_, hcm, ?_⟩
      · rw [List.forall_mem_cons]
        exact ⟨hc, hpre⟩
      · simp only [updateOne, if_neg hc, hfst]
        rfl

theorem updateOne_id_of_fix (modify : Category → Category)
    (store : List Category) (cid : String)
    (h : ∀ c ∈ store, c.id = cid → modify c = c) :
    (updateOne modify store cid).1 = store := by
  induction store with
  | nil => rfl
  | cons c rest ih =>
    by_cases hc : c.id = cid
    · simp [updateOne, hc, h c (List.mem_cons_self c rest) hc]
    · simp only [updateOne, if_neg hc]
      rw [ih (fun c2 h2 => h c2 (List.mem_cons_of_mem c h2))]

theorem pullPhoto_not_present (slot : Slot) (c : Category) (pid : String)
    (h : ∀ p ∈ slotPhotos slot c, p.id ≠ pid) : pullPhoto slot c pid = c := by
  cases slot with
  | before =>
    show ({ c with
      photos_before := c.photos_before.filter (fun p => p.id ≠ pid) } : Category) = c
    have hf : c.photos_before.filter (fun p => p.id ≠ pid) = c.photos_before := by
      rw [List.filter_eq_self]
      intro p hp
      simpa using h p hp
    rw [hf]
  | after =>
    show ({ c with
      photos_after := c.photos_after.filter (fun p => p.id ≠ pid) } : Category) = c
    have hf : c.photos_after.filter (fun p => p.id ≠ pid) = c.photos_after := by
      rw [List.filter_eq_self]
      intro p hp
      simpa using h p hp
    rw [hf]

/- ### Invariants of a successful storage upload -/

theorem upload_photo_ok_inv (bot_token : String) (sendResp : SendPhotoResp)
    (getFileResp : String → Option String) (file_content : List Nat)
    (filename mime_type : String)
    (u : String) (t : Option String) (s : Nat) (m : String)
    (h : upload_photo bot_token sendResp getFileResp file_content filename mime_type
      = .ok (u, t, s, m)) : u ≠ "" ∧ t ≠ none := by
  simp only [upload_photo] at h
  by_cases hm : mockMode bot_token = true
  · rw [if_pos hm] at h
    simp only [mock_upload, Except.ok.injEq, Prod.mk.injEq] at h
    obtain ⟨hu, ht, -⟩ := h
    constructor
    · rw [← hu]
      apply str_append_ne_empty
      apply str_append_ne_empty
      apply str_append_ne_empty
      decide
    · rw [← ht]
      simp
  · rw [if_neg hm] at h
    cases sendResp with
    | failure e => simp at h
    | success file_id =>
      cases hg : getFileResp file_id with
      | none => simp [get_file_url, hg] at h
      | some fp =>
        simp only [get_file_url, hg] at h
        by_cases he : ("https://api.telegram.org/file/bot" ++ bot_token ++ "/" ++ fp) = ""
        · rw [if_pos he] at h
          simp at h
        · rw [if_neg he] at h
          simp only [Except.ok.injEq, Prod.mk.injEq] at h
          obtain ⟨hu, ht, -⟩ := h
          exact ⟨hu ▸ he, by rw [← ht]; simp⟩

/- ### Claim theorems -/

/-- C4: In Mock mode, `upload_photo` is deterministic in the byte content
and never fails: for every input (whatever the network stubs would answer)
it returns the 4-tuple whose external id is derived solely from the md5
content hash of the bytes — so identical bytes give the identical id,
independent of filename, mime type and network — whose URL is the
self-contained `data:<mime>;base64,<base64 of the bytes>` string, and whose
size equals the byte length of the input. -/
theorem mock_upload_deterministic (bot_token : String)
    (hm : mockMode bot_token = true)
    (sendResp sendResp2 : SendPhotoResp)
    (getFileResp getFileResp2 : String → Option String)
    (b : List Nat) (f f2 m m2 : String) :
    upload_photo bot_token sendResp getFileResp b f m
      = .ok ("data:" ++ m ++ ";base64," ++ base64Encode b,
             some ("AgACAgIAAxkBAAI_" ++ md5hex b ++ "_mock"), b.length, m)
    ∧ (upload_photo bot_token sendResp getFileResp b f m).map (fun r => r.2.1)
      = (upload_photo bot_token sendResp2 getFileResp2 b f2 m2).map (fun r => r.2.1) := by
  constructor
  · simp [upload_photo, hm, mock_upload, mock_file_id]
  · simp [upload_photo, hm, mock_upload, Except.map]

/-- Witness for C4 at a concrete mock-mode call. -/
theorem mock_upload_deterministic_witness :
    upload_photo "mock_bot_token_12345" (.failure "network down") (fun _ => none)
        [1, 2, 3] "a.png" "image/png"
      = .ok ("data:image/png;base64," ++ base64Encode [1, 2, 3],
             some ("AgACAgIAAxkBAAI_" ++ md5hex [1, 2, 3] ++ "_mock"), 3, "image/png") :=
  (mock_upload_deterministic "mock_bot_token_12345" (by decide)
    (.failure "network down") (.failure "x") (fun _ => none) (fun _ => none)
    [1, 2, 3] "a.png" "b.png" "image/png" "image/gif").1

/-- C6 counterexample: the claim says presence of the credential alone
selects Real mode, but a present credential whose value itself starts with
the mock marker (for example `TELEGRAM_BOT_TOKEN=mock_abc`) still yields
Mock mode, because `TelegramService.__init__` tests the token prefix, not
the presence of the variable. -/
theorem mock_mode_despite_credential :
    ¬ (∀ env : Option String, env.isSome = true → mockMode (botToken env) = false) := by
  intro h
  have h2 := h (some "mock_abc") rfl
  have h3 : mockMode (botToken (some "mock_abc")) = true := by decide
  rw [h2] at h3
  cases h3

/-- C6 amended: the backend variant is fixed once from the environment at
construction; the credential being absent yields Mock mode (via the
`mock_`-prefixed default token), and a present credential yields Mock mode
exactly when its value starts with `mock_` — Real mode otherwise. -/
theorem mock_mode_switch (env : Option String) :
    mockMode (botToken env) = true
      ↔ (env = none ∨ ∃ t, env = some t ∧ strStartsWith t "mock_" = true) := by
  cases env with
  | none =>
    constructor
    · intro h
      exact Or.inl rfl
    · intro h
      decide
  | some t =>
    simp only [botToken, Option.getD, mockMode]
    constructor
    · intro h
      exact Or.inr ⟨t, rfl, h⟩
    · intro h
      rcases h with h | ⟨t2, ht2, hs⟩
      · cases h
      · injection ht2 with ht2
        rw [ht2]
        exact hs

/- ### Extension and content-type conditions of the quick validator -/

theorem ext_png_mem (fn : String) :
    ("." ++ extensionOf fn) ∈ ALLOWED_EXTENSIONS
      ↔ ('.' ∈ fn.data ∧ extensionOf fn = "png") := by
  simp only [ALLOWED_EXTENSIONS, List.mem_singleton]
  rw [dot_append_eq]
  constructor
  · intro h
    refine ⟨?_, h⟩
    by_contra hd
    rw [extensionOf, if_neg hd] at h
    exact absurd h (by decide)
  · exact fun h => h.2

theorem ct_cond_iff (ct : Option String) :
    (¬ (ct.getD "" ≠ "" ∧ ¬ ct.getD "" ∈ ALLOWED_MIME_TYPES))
      ↔ (ct = none ∨ ct = some "" ∨ ct = some "image/png") := by
  cases ct with
  | none => simp
  | some c =>
    by_cases h1 : c = "" <;> by_cases h2 : c = "image/png" <;>
      simp [ALLOWED_MIME_TYPES, h1, h2]

/-- C3 counterexample: the claim requires an error whenever the declared
content type is present and differs from `image/png`, but `validate_file`
follows Python truthiness (`if file.content_type`), so a present but empty
declared content type — representable in the handler's `Optional[str]`
input — is accepted. -/
theorem validate_file_accepts_empty_content_type :
    validate_file (some "x.png") (some "") = none
    ∧ ¬ ((some "" : Option String) = none
          ∨ (some "" : Option String) = some "image/png") := by
  constructor
  · decide
  · decide

/-- C3 amended: `validate_file` returns no error iff the filename is present
and non-empty with the substring after its last dot (case-insensitively)
exactly `png`, and the declared content type is absent, empty, or
`image/png`; and whenever it returns an error, the upload routes reject with
that message as a 400 and no storage call occurs (the route result is the
unchanged store paired with the validation error). -/
theorem validate_file_spec (filename content_type : Option String) :
    (validate_file filename content_type = none
      ↔ ((∃ fn, filename = some fn ∧ fn ≠ "" ∧ '.' ∈ fn.data ∧ extensionOf fn = "png")
          ∧ (content_type = none ∨ content_type = some ""
              ∨ content_type = some "image/png")))
    ∧ (∀ err, validate_file filename content_type = some err →
        ∀ (Img : Type) (ctx : UploadCtx Img) (slot : Slot) (store : List Category)
          (cid : String) (content : List Nat),
          upload_photo_route ctx slot store cid filename content_type content
            = (store, .error ⟨400, err⟩)) := by
  constructor
  · cases filename with
    | none => simp [validate_file]
    | some fn =>
      by_cases hfn : fn = ""
      · subst hfn
        simp [validate_file]
      · simp only [validate_file, Option.getD_some, if_neg hfn]
        by_cases hA : ("." ++ extensionOf fn) ∈ ALLOWED_EXTENSIONS
        · rw [if_neg (not_not_intro hA)]
          rw [ext_png_mem] at hA
          by_cases hB : (content_type.getD "" ≠ ""
              ∧ ¬ content_type.getD "" ∈ ALLOWED_MIME_TYPES)
          · rw [if_pos hB]
            constructor
            · intro h
              exact absurd h (by simp)
            · intro h
              exact absurd hB ((ct_cond_iff content_type).mpr h.2)
          · rw [if_neg hB]
            constructor
            · intro _
              exact ⟨⟨fn, rfl, hfn, hA.1, hA.2⟩, (ct_cond_iff content_type).mp hB⟩
            · intro _
              rfl
        · rw [if_pos hA]
          constructor
          · intro h
            exact absurd h (by simp)
          · rintro ⟨⟨fn2, hfn2, -, hdot, hext⟩, -⟩
            injection hfn2 with hfn2
            rw [← hfn2] at hdot hext
            exact absurd ((ext_png_mem fn).mpr ⟨hdot, hext⟩) hA
  · intro err herr Img ctx slot store cid content
    simp [upload_photo_route, herr]

/-- Witness for C3 amended, exercising both parts at concrete inputs. -/
theorem validate_file_spec_witness :
    (validate_file (some "x.png") (some "image/png") = none
      ↔ ((∃ fn, (some "x.png" : Option String) = some fn ∧ fn ≠ ""
            ∧ '.' ∈ fn.data ∧ extensionOf fn = "png")
          ∧ ((some "image/png" : Option String) = none
              ∨ (some "image/png" : Option String) = some ""
              ∨ (some "image/png" : Option String) = some "image/png")))
    ∧ upload_photo_route ctxMock .before [catA] "A" (some "x.jpg") (some "image/png") [1]
      = ([catA], .error ⟨400, "Invalid file extension. Allowed: .png"⟩) :=
  ⟨(validate_file_spec (some "x.png") (some "image/png")).1,
   (validate_file_spec (some "x.jpg") (some "image/png")).2
     "Invalid file extension. Allowed: .png" (by decide)
     Nat ctxMock .before [catA] "A" [1]⟩

/-- C9 counterexample: a 5-byte payload is not size zero, so neither the full
validator nor the route produces the "File is empty" rejection the claim
demands: `validate_and_read_upload` accepts the 5-byte payload outright, and
the upload route (which never consults that validator) rejects it at the
Pillow decode step instead. -/
theorem five_byte_payload_not_rejected_as_empty :
    validate_and_read_upload (some (fun _ => none)) [1, 2, 3, 4, 5]
        (some "x.png") (some "image/png")
      = .ok ([1, 2, 3, 4, 5], some "image/png", "x.png")
    ∧ upload_photo_route ctxDecodeFail .before [catA] "A" (some "x.png")
        (some "image/png") [1, 2, 3, 4, 5]
      = ([catA], .error ⟨400, "Invalid image file: cannot identify image file"⟩) := by
  constructor
  · decide
  · decide

/-- C9 amended: the "File is empty" rejection belongs to the full validator
`validate_and_read_upload` (which the upload routes do not invoke) and fires
exactly on a zero-byte payload, before any content sniffing is consulted
(the conclusion holds for every sniffing stub) and before the extension and
declared-type checks (it holds for every filename and declared type). -/
theorem empty_payload_rejected_before_sniffing
    (sniff : Option (List Nat → Option String))
    (filename content_type : Option String) :
    validate_and_read_upload sniff [] filename content_type
      = .error ⟨400, "File is empty"⟩ := by
  simp [validate_and_read_upload, MAX_FILE_SIZE]

/-- C2: code-bug evidence.  Part one shows the upload route applies no size
check at all: on a payload one byte over the 10 MiB ceiling it proceeds
straight to the Pillow decode step (the result is the decoder's own 400
error, proving the normalizer ran on the oversize payload), for every store
and category.  Part two shows the 10 MB rejection the claim describes does
exist — with exactly the claimed message — but only inside
`validate_and_read_upload`, which no upload route calls. -/
theorem oversize_payload_reaches_normalizer :
    (∀ (store : List Category) (cid : String),
      upload_photo_route ctxDecodeFail .before store cid (some "x.png")
          (some "image/png") oversizePayload
        = (store, .error ⟨400, "Invalid image file: cannot identify image file"⟩))
    ∧ (∀ (sniff : Option (List Nat → Option String)) (content : List Nat)
        (filename content_type : Option String),
        content.length > MAX_FILE_SIZE →
        validate_and_read_upload sniff content filename content_type
          = .error ⟨400, "File too large. Maximum size is 10MB"⟩) := by
  constructor
  · intro store cid
    have hv : validate_file (some "x.png") (some "image/png") = none := by decide
    simp [upload_photo_route, hv, normalizePNG,
      show ctxDecodeFail.decode oversizePayload
        = Except.error "cannot identify image file" from rfl]
  · intro sniff content filename content_type hlen
    simp only [validate_and_read_upload]
    rw [if_pos hlen]
    decide

/- ### Behaviour of the push-and-check step -/

theorem pushRecord_def (slot : Slot) (store : List Category) (cid : String)
    (photo : Photo) :
    pushRecord slot store cid photo
      = if (updateOnePush slot store cid photo).2 = 0 then
          ((updateOnePush slot store cid photo).1,
            .error ⟨404, "Category not found"⟩)
        else ((updateOnePush slot store cid photo).1,
            .ok ⟨true, some photo, "Photo uploaded successfully"⟩) := rfl

theorem pushRecord_error_fst (slot : Slot) (store : List Category)
    (cid : String) (photo : Photo) (e : HTTPError)
    (he : (pushRecord slot store cid photo).2 = .error e) :
    (pushRecord slot store cid photo).1 = store := by
  rw [pushRecord_def] at he ⊢
  by_cases hz : (updateOnePush slot store cid photo).2 = 0
  · rw [if_pos hz]
    exact (updateOne_zero _ store cid hz).1
  · rw [if_neg hz] at he
    simp at he

theorem pushRecord_not_found (slot : Slot) (store : List Category)
    (cid : String) (photo : Photo) (habs : ∀ c ∈ store, c.id ≠ cid) :
    pushRecord slot store cid photo = (store, .error ⟨404, "Category not found"⟩) := by
  have hz := updateOne_not_found (fun c => pushPhoto slot c photo) store cid habs
  rw [pushRecord_def,
    show updateOnePush slot store cid photo = (store, 0) from hz]
  simp

theorem pushRecord_ok (slot : Slot) (store : List Category) (cid : String)
    (photo : Photo) (s2 : List Category) (resp : UploadResponse)
    (h : pushRecord slot store cid photo = (s2, .ok resp)) :
    resp = ⟨true, some photo, "Photo uploaded successfully"⟩
      ∧ ∃ pre c post, store = pre ++ c :: post ∧ (∀ c2 ∈ pre, c2.id ≠ cid)
        ∧ c.id = cid ∧ s2 = pre ++ pushPhoto slot c photo :: post := by
  rw [pushRecord_def] at h
  by_cases hz : (updateOnePush slot store cid photo).2 = 0
  · rw [if_pos hz] at h
    rw [Prod.ext_iff] at h
    exact absurd h.2 (by simp)
  · rw [if_neg hz] at h
    have h1 : (updateOnePush slot store cid photo).1 = s2 := congrArg Prod.fst h
    have h2 : Except.ok (⟨true, some photo, "Photo uploaded successfully"⟩ : UploadResponse)
        = Except.ok resp := congrArg Prod.snd h
    injection h2 with h2
    obtain ⟨pre, c, post, he, hpre, hcid, hfst⟩ := updateOne_pos _ store cid hz
    exact ⟨h2.symm, pre, c, post, he, hpre, hcid, by rw [← h1]; exact hfst⟩

/-- C1: the category store is mutated only after the storage call fully
succeeds.  Whenever the route ends in any error — validation failure, Pillow
decode failure, storage upload or URL-resolution failure (both are `.error`
results of `upload_photo`), or NotFound — the resulting store equals the
initial store, for both slots; and when validation, decoding, and the
storage upload all succeed but no category carries the requested id, the
single `$push` update matches zero documents, mutates nothing, and the
route reports NotFound from that matched count (the model performs no
separate read). -/
theorem upload_mutates_only_after_storage_success {Img : Type}
    (ctx : UploadCtx Img) (slot : Slot) (store : List Category)
    (category_id : String) (filename content_type : Option String)
    (file_content : List Nat) :
    (∀ e, (upload_photo_route ctx slot store category_id filename
          content_type file_content).2 = .error e →
      (upload_photo_route ctx slot store category_id filename
          content_type file_content).1 = store)
    ∧ (∀ (img : Img) (res : String × Option String × Nat × String),
        validate_file filename content_type = none →
        ctx.decode file_content = .ok img →
        upload_photo ctx.bot_token ctx.sendResp ctx.getFileResp
            (ctx.savePNG img) (filename.getD "") "image/png" = .ok res →
        (∀ c ∈ store, c.id ≠ category_id) →
        upload_photo_route ctx slot store category_id filename content_type
            file_content
          = (store, .error ⟨404, "Category not found"⟩)) := by
  constructor
  · intro e he
    cases hv : validate_file filename content_type with
    | some err => simp [upload_photo_route, hv]
    | none =>
      cases hd : ctx.decode file_content with
      | error de => simp [upload_photo_route, hv, normalizePNG, hd]
      | ok img =>
        have hroute : upload_photo_route ctx slot store category_id filename
            content_type file_content
            = recordUploaded ctx slot store category_id filename (ctx.savePNG img) := by
          simp [upload_photo_route, hv, normalizePNG, hd]
        rw [hroute] at he ⊢
        unfold recordUploaded at he ⊢
        cases hu : upload_photo ctx.bot_token ctx.sendResp ctx.getFileResp
            (ctx.savePNG img) (filename.getD "") "image/png" with
        | error ue => simp [hu]
        | ok res =>
          obtain ⟨u, t, s, m⟩ := res
          simp only [hu] at he ⊢
          exact pushRecord_error_fst slot store category_id _ e he
  · intro img res hv hd hu habs
    have hroute : upload_photo_route ctx slot store category_id filename
        content_type file_content
        = recordUploaded ctx slot store category_id filename (ctx.savePNG img) := by
      simp [upload_photo_route, hv, normalizePNG, hd]
    rw [hroute]
    unfold recordUploaded
    obtain ⟨u, t, s, m⟩ := res
    simp only [hu]
    exact pushRecord_not_found slot store category_id _ habs

/-- Witness for C1 at a concrete mock-mode run against a store that lacks
the target category. -/
theorem upload_mutates_only_after_storage_success_witness :
    upload_photo_route ctxMock .before [catB] "A" (some "x.png")
        (some "image/png") [1]
      = ([catB], .error ⟨404, "Category not found"⟩) :=
  (upload_mutates_only_after_storage_success ctxMock .before [catB] "A"
      (some "x.png") (some "image/png") [1]).2
    7
    ("data:image/png;base64," ++ base64Encode [137, 80, 7],
      some (mock_file_id [137, 80, 7]), 3, "image/png")
    (by decide) rfl rfl (by decide)

/-- C5: after validation passes, the normalizer gates the pipeline: when the
Pillow decode raises with text `e`, the route rejects with the client error
`400 "Invalid image file: <e>"` and the store is untouched; when the decode
succeeds, the pipeline continues exactly as `recordUploaded` applied to the
PNG re-encoding `savePNG img` of the decoded image — so the storage backend
receives the canonical PNG bytes whatever the input's original format (a
JPEG stream under a `.png` name included: only `decode` success matters). -/
theorem normalizer_gates_upload {Img : Type} (ctx : UploadCtx Img)
    (slot : Slot) (store : List Category) (category_id : String)
    (filename content_type : Option String) (file_content : List Nat)
    (hv : validate_file filename content_type = none) :
    (∀ e, ctx.decode file_content = .error e →
      upload_photo_route ctx slot store category_id filename content_type
          file_content
        = (store, .error ⟨400, "Invalid image file: " ++ e⟩))
    ∧ (∀ img, ctx.decode file_content = .ok img →
      upload_photo_route ctx slot store category_id filename content_type
          file_content
        = recordUploaded ctx slot store category_id filename (ctx.savePNG img)) := by
  constructor
  · intro e hd
    simp [upload_photo_route, hv, normalizePNG, hd]
  · intro img hd
    simp [upload_photo_route, hv, normalizePNG, hd]

/-- Witness for C5: `ctxMock.decode` raises on `[0]` and decodes `[1]`. -/
theorem normalizer_gates_upload_witness :
    upload_photo_route ctxMock .before [catA] "A" (some "x.png")
        (some "image/png") [0]
      = ([catA], .error ⟨400, "Invalid image file: broken stream"⟩)
    ∧ upload_photo_route ctxMock .before [catA] "A" (some "x.png")
        (some "image/png") [1]
      = recordUploaded ctxMock .before [catA] "A" (some "x.png")
          (ctxMock.savePNG 7) :=
  ⟨(normalizer_gates_upload ctxMock .before [catA] "A" (some "x.png")
      (some "image/png") [0] (by decide)).1 "broken stream" rfl,
   (normalizer_gates_upload ctxMock .before [catA] "A" (some "x.png")
      (some "image/png") [1] (by decide)).2 7 rfl⟩

/-- C7 counterexample: the claim says a Photo produced via the Mock path has
no external storage id, but the mock branch of `upload_photo` returns the
synthetic `AgACAgIAAxkBAAI_<md5>_mock` id and the route records it: the
recorded Photo's `telegram_file_id` is `some _`, not `None`. -/
theorem mock_path_sets_external_id :
    (mock_upload [137, 80, 7] "image/png").2.1 = some (mock_file_id [137, 80, 7])
    ∧ mock_file_id [137, 80, 7] ≠ ""
    ∧ (upload_photo_route ctxMock .before [catA] "A" (some "x.png")
        (some "image/png") [1]).2
      = .ok ⟨true, some mockPhotoW, "Photo uploaded successfully"⟩
    ∧ mockPhotoW.telegram_file_id ≠ none := by
  refine ⟨rfl, by decide, by decide, ?_⟩
  simp [mockPhotoW]

/-- C7 amended: every Photo produced by a successful upload has a non-empty
URL, and its external storage id is set on both paths — the Telegram file id
on the Real path and the deterministic synthetic id on the Mock path — so
`telegram_file_id` is never `None` on success. -/
theorem upload_success_photo_invariant {Img : Type} (ctx : UploadCtx Img)
    (slot : Slot) (store : List Category) (category_id : String)
    (filename content_type : Option String) (file_content : List Nat)
    (s2 : List Category) (resp : UploadResponse)
    (h : upload_photo_route ctx slot store category_id filename content_type
        file_content = (s2, .ok resp)) :
    ∃ p, resp.photo = some p ∧ p.file_url ≠ "" ∧ p.telegram_file_id ≠ none := by
  cases hv : validate_file filename content_type with
  | some err => simp [upload_photo_route, hv] at h
  | none =>
    cases hd : ctx.decode file_content with
    | error de => simp [upload_photo_route, hv, normalizePNG, hd] at h
    | ok img =>
      rw [show upload_photo_route ctx slot store category_id filename
            content_type file_content
          = recordUploaded ctx slot store category_id filename (ctx.savePNG img) from by
        simp [upload_photo_route, hv, normalizePNG, hd]] at h
      unfold recordUploaded at h
      cases hu : upload_photo ctx.bot_token ctx.sendResp ctx.getFileResp
          (ctx.savePNG img) (filename.getD "") "image/png" with
      | error ue => simp [hu] at h
      | ok res =>
        obtain ⟨u, t, s, m⟩ := res
        simp only [hu] at h
        obtain ⟨hresp, -⟩ := pushRecord_ok slot store category_id _ s2 resp h
        obtain ⟨hne_u, hne_t⟩ := upload_photo_ok_inv ctx.bot_token ctx.sendResp
          ctx.getFileResp (ctx.savePNG img) (filename.getD "") "image/png" u t s m hu
        exact ⟨⟨ctx.photo_uuid, t, none, u, some s, some m, ctx.now⟩,
          by rw [hresp], hne_u, hne_t⟩

/-- Witness for C7 amended at a concrete successful mock-mode upload. -/
theorem upload_success_photo_invariant_witness :
    ∃ p, (UploadResponse.mk true (some mockPhotoW)
        "Photo uploaded successfully").photo = some p
      ∧ p.file_url ≠ "" ∧ p.telegram_file_id ≠ none :=
  upload_success_photo_invariant ctxMock .before [catA] "A" (some "x.png")
    (some "image/png") [1]
    [{ catA with photos_before := catA.photos_before ++ [mockPhotoW] }]
    ⟨true, some mockPhotoW, "Photo uploaded successfully"⟩
    (by decide)

/-- C8: `delete_photo` is idempotent with respect to absent photo ids.  A
`photo_type` outside the slot pair is rejected as a 400 caller error with an
unchanged store; with a valid slot, NotFound (404) is returned exactly when
no category carries `category_id` (and then nothing is mutated); when the
category exists the call succeeds — never NotFound for a merely missing
photo id — and if the id is absent from the target slot of every matching
category the store is returned entirely unchanged. -/
theorem delete_photo_idempotent (store : List Category)
    (cid pid ptype : String) :
    (¬ (ptype = "before" ∨ ptype = "after") →
      delete_photo store cid pid ptype
        = (store, .error ⟨400, "photo_type must be \x27before\x27 or \x27after\x27"⟩))
    ∧ ((ptype = "before" ∨ ptype = "after") → (∀ c ∈ store, c.id ≠ cid) →
      delete_photo store cid pid ptype
        = (store, .error ⟨404, "Category not found"⟩))
    ∧ ((ptype = "before" ∨ ptype = "after") → (∃ c ∈ store, c.id = cid) →
      ∃ s2, delete_photo store cid pid ptype
        = (s2, .ok "Photo deleted successfully"))
    ∧ ((ptype = "before" ∨ ptype = "after") → (∃ c ∈ store, c.id = cid) →
      (∀ c ∈ store, c.id = cid → ∀ p ∈ slotPhotos (slotOf ptype) c, p.id ≠ pid) →
      delete_photo store cid pid ptype
        = (store, .ok "Photo deleted successfully")) := by
  refine ⟨?_, ?_, ?_, ?_⟩
  · intro h
    simp [delete_photo, h]
  · intro hvalid habs
    have hz := updateOne_not_found (fun c => pullPhoto (slotOf ptype) c pid)
      store cid habs
    simp only [delete_photo, if_neg (not_not_intro hvalid)]
    rw [show updateOnePull (slotOf ptype) store cid pid = (store, 0) from hz]
    simp
  · intro hvalid hex
    have hnz : (updateOnePull (slotOf ptype) store cid pid).2 ≠ 0 :=
      updateOne_found (fun c => pullPhoto (slotOf ptype) c pid) store cid hex
    refine ⟨(updateOnePull (slotOf ptype) store cid pid).1, ?_⟩
    simp only [delete_photo, if_neg (not_not_intro hvalid)]
    rw [if_neg hnz]
  · intro hvalid hex hno
    have hfst : (updateOnePull (slotOf ptype) store cid pid).1 = store :=
      updateOne_id_of_fix (fun c => pullPhoto (slotOf ptype) c pid)
        store cid (fun c hm hc => pullPhoto_not_present (slotOf ptype) c pid (hno c hm hc))
    have hnz : (updateOnePull (slotOf ptype) store cid pid).2 ≠ 0 :=
      updateOne_found (fun c => pullPhoto (slotOf ptype) c pid) store cid hex
    simp only [delete_photo, if_neg (not_not_intro hvalid)]
    rw [if_neg hnz, hfst]

/-- Witness for C8: invalid slot, absent category, and absent photo id. -/
theorem delete_photo_idempotent_witness :
    delete_photo [catA] "A" "p1" "sideways"
      = ([catA], .error ⟨400, "photo_type must be \x27before\x27 or \x27after\x27"⟩)
    ∧ delete_photo [catA] "B" "p1" "before"
      = ([catA], .error ⟨404, "Category not found"⟩)
    ∧ delete_photo [catA] "A" "zzz" "before"
      = ([catA], .ok "Photo deleted successfully") :=
  ⟨(delete_photo_idempotent [catA] "A" "p1" "sideways").1 (by decide),
   (delete_photo_idempotent [catA] "B" "p1" "before").2.1 (by decide) (by decide),
   (delete_photo_idempotent [catA] "A" "zzz" "before").2.2.2 (by decide)
     (by decide) (by decide)⟩

/-- C10: a successful upload mutates exactly one document and exactly one
slot.  The initial store decomposes around the first (and only updated)
category matching the id; the final store keeps every other document — the
prefix before the match and the suffix after it — untouched, and on the
matched category only the addressed slot changes, by appending the recorded
Photo at the end: `id`, `name`, `sentences`, `created_at` and the other
slot's photo list are all preserved. -/
theorem upload_success_frame {Img : Type} (ctx : UploadCtx Img) (slot : Slot)
    (store : List Category) (category_id : String)
    (filename content_type : Option String) (file_content : List Nat)
    (s2 : List Category) (resp : UploadResponse)
    (h : upload_photo_route ctx slot store category_id filename content_type
        file_content = (s2, .ok resp)) :
    ∃ pre c post p, resp.photo = some p
      ∧ store = pre ++ c :: post
      ∧ (∀ c2 ∈ pre, c2.id ≠ category_id)
      ∧ c.id = category_id
      ∧ s2 = pre ++ pushPhoto slot c p :: post
      ∧ (pushPhoto slot c p).id = c.id
      ∧ (pushPhoto slot c p).name = c.name
      ∧ (pushPhoto slot c p).sentences = c.sentences
      ∧ (pushPhoto slot c p).created_at = c.created_at
      ∧ slotPhotos slot (pushPhoto slot c p) = slotPhotos slot c ++ [p]
      ∧ (∀ slot2, slot2 ≠ slot →
          slotPhotos slot2 (pushPhoto slot c p) = slotPhotos slot2 c) := by
  cases hv : validate_file filename content_type with
  | some err => simp [upload_photo_route, hv] at h
  | none =>
    cases hd : ctx.decode file_content with
    | error de => simp [upload_photo_route, hv, normalizePNG, hd] at h
    | ok img =>
      rw [show upload_photo_route ctx slot store category_id filename
            content_type file_content
          = recordUploaded ctx slot store category_id filename (ctx.savePNG img) from by
        simp [upload_photo_route, hv, normalizePNG, hd]] at h
      unfold recordUploaded at h
      cases hu : upload_photo ctx.bot_token ctx.sendResp ctx.getFileResp
          (ctx.savePNG img) (filename.getD "") "image/png" with
      | error ue => simp [hu] at h
      | ok res =>
        obtain ⟨u, t, s, m⟩ := res
        simp only [hu] at h
        obtain ⟨hresp, pre, c, post, he, hpre, hcid, hs2⟩ :=
          pushRecord_ok slot store category_id _ s2 resp h
        refine ⟨pre, c, post, ⟨ctx.photo_uuid, t, none, u, some s, some m, ctx.now⟩,
          by rw [hresp], he, hpre, hcid, hs2, ?_, ?_, ?_, ?_, ?_, ?_⟩
        · cases slot <;> rfl
        · cases slot <;> rfl
        · cases slot <;> rfl
        · cases slot <;> rfl
        · cases slot <;> rfl
        · intro slot2 hne
          cases slot <;> cases slot2
          · exact absurd rfl hne
          · rfl
          · rfl
          · exact absurd rfl hne

/-- Witness for C10: a successful mock-mode upload into a two-category
store, decomposing it around the matched category. -/
theorem upload_success_frame_witness :
    ∃ pre c post p,
      (UploadResponse.mk true (some mockPhotoW)
          "Photo uploaded successfully").photo = some p
      ∧ [catB, catA] = pre ++ c :: post
      ∧ (∀ c2 ∈ pre, c2.id ≠ "A")
      ∧ c.id = "A"
      ∧ [catB, { catA with photos_before := catA.photos_before ++ [mockPhotoW] }]
          = pre ++ pushPhoto .before c p :: post
      ∧ (pushPhoto .before c p).id = c.id
      ∧ (pushPhoto .before c p).name = c.name
      ∧ (pushPhoto .before c p).sentences = c.sentences
      ∧ (pushPhoto .before c p).created_at = c.created_at
      ∧ slotPhotos .before (pushPhoto .before c p) = slotPhotos .before c ++ [p]
      ∧ (∀ slot2, slot2 ≠ Slot.before →
          slotPhotos slot2 (pushPhoto .before c p) = slotPhotos slot2 c) :=
  upload_success_frame ctxMock .before [catB, catA] "A" (some "x.png")
    (some "image/png") [1]
    [catB, { catA with photos_before := catA.photos_before ++ [mockPhotoW] }]
    ⟨true, some mockPhotoW, "Photo uploaded successfully"⟩
    (by decide)

/-- Witness for C2 at the concrete payload one byte over the ceiling. -/
theorem oversize_payload_reaches_normalizer_witness :
    upload_photo_route ctxDecodeFail .before [catA] "A" (some "x.png")
        (some "image/png") oversizePayload
      = ([catA], .error ⟨400, "Invalid image file: cannot identify image file"⟩)
    ∧ validate_and_read_upload (some (fun _ => none)) oversizePayload
        (some "x.png") (some "image/png")
      = .error ⟨400, "File too large. Maximum size is 10MB"⟩ :=
  ⟨oversize_payload_reaches_normalizer.1 [catA] "A",
   oversize_payload_reaches_normalizer.2 (some (fun _ => none)) oversizePayload
     (some "x.png") (some "image/png") (by simp [oversizePayload])⟩
